import Mathlib

/-!
Shallow embedding of `SceneManager` (src/Source/SceneManager.cpp) from the
CS330 computational-graphics coursework repository: the texture/material
registry, the transformation pipeline and the shader-uniform wrapper calls.

Modelling conventions:
* `glm::vec3` color values and other float scalars that are only stored and
  copied are modelled as exact rationals (`ℚ`); float scalars fed into
  trigonometry (the transformation pipeline) are modelled as reals (`ℝ`).
* The C array `m_textureIDs[16]` is modelled as a total function
  `Nat → TEXTURE_ID` together with the capacity constant `textureCapacity = 16`;
  the constructor initialises the entries and `CreateGLTexture` writes at index
  `m_loadedTextures` with no bounds check, exactly as the C++ does.
* `stbi_load` and `glGenTextures` are external inputs: the image-load outcome
  and the fresh GL handle are passed to `CreateGLTexture` as arguments.
* The `ShaderManager *` collaborator is modelled by a `Bool` (pointer non-null)
  plus the list of uniform-setting calls the method issues.
-/

/-- The texture-table entry type (tag/ID pair stored in `m_textureIDs`). -/
structure TEXTURE_ID where
  tag : String
  ID : Int
deriving DecidableEq

/-- `glm::vec3` as used for material colors: three exact scalars. -/
abbrev Vec3Q := ℚ × ℚ × ℚ

/-- The material record stored in `m_objectMaterials`. -/
structure OBJECT_MATERIAL where
  ambientColor : Vec3Q
  ambientStrength : ℚ
  diffuseColor : Vec3Q
  specularColor : Vec3Q
  shininess : ℚ
  tag : String
deriving DecidableEq

/-- The registry state owned by a `SceneManager` object: the fixed texture
table, the count of loaded textures, and the growable material list. -/
structure SceneState where
  textureIDs : Nat → TEXTURE_ID
  loadedTextures : Nat
  objectMaterials : List OBJECT_MATERIAL

/-- `SceneManager::SceneManager`: every texture slot is initialised to the
pair `("/0", -1)` and the loaded-texture count to zero; the material list
starts empty. -/
def initialSceneState : SceneState where
  textureIDs := fun _ => ⟨"/0", -1⟩
  loadedTextures := 0
  objectMaterials := []

/-- The texture-table capacity: the constructor initialises exactly 16
entries (`for (int i = 0; i < 16; i++)`). -/
def textureCapacity : Nat := 16

/-! ## FindMaterial -/

/-- The field copy performed inside `FindMaterial`'s match branch: the five
lighting fields of `material` are overwritten from the matching record; note
that the C++ does NOT copy the `tag` field of the output parameter. -/
def copyMaterialFields (dst src : OBJECT_MATERIAL) : OBJECT_MATERIAL :=
  { dst with
    ambientColor := src.ambientColor
    ambientStrength := src.ambientStrength
    diffuseColor := src.diffuseColor
    specularColor := src.specularColor
    shininess := src.shininess }

/-- The scan loop of `SceneManager::FindMaterial`: walk the list in order;
at the first record whose tag compares equal the five fields are copied and
the loop stops (`bFound = true`); otherwise the output is returned as it
came in. -/
def findMaterialScan : List OBJECT_MATERIAL → String → OBJECT_MATERIAL → OBJECT_MATERIAL
  | [], _, material => material
  | m :: rest, tag, material =>
      if m.tag = tag then copyMaterialFields material m
      else findMaterialScan rest tag material

/-- `SceneManager::FindMaterial(tag, material)`: returns `false` immediately
when the material list is empty; otherwise runs the scan loop and returns
`true` unconditionally (the C++ `return(true)` after the loop does not
consult `bFound`). The pair is (return value, final value of the by-reference
output parameter). -/
def FindMaterial (mats : List OBJECT_MATERIAL) (tag : String)
    (material : OBJECT_MATERIAL) : Bool × OBJECT_MATERIAL :=
  if mats.length = 0 then
    (false, material)
  else
    (true, findMaterialScan mats tag material)

/-! ## DefineObjectMaterials -/

/-- The `silver` record pushed by `DefineObjectMaterials`. -/
def silverMaterial : OBJECT_MATERIAL where
  ambientColor := (0.09225, 0.09225, 0.09225)
  ambientStrength := 0.1
  diffuseColor := (0.40754, 0.40754, 0.40754)
  specularColor := (0.408273, 0.408273, 0.408273)
  shininess := 1.0
  tag := "silver"

/-- The `goldMaterial` record pushed by `DefineObjectMaterials` (tag "metal"). -/
def goldMaterial : OBJECT_MATERIAL where
  ambientColor := (0.2, 0.2, 0.2)
  ambientStrength := 0.3
  diffuseColor := (0.2, 0.2, 0.2)
  specularColor := (0.5, 0.5, 0.5)
  shininess := 22.0
  tag := "metal"

/-- The `blackMetalMaterial` record pushed by `DefineObjectMaterials`. -/
def blackMetalMaterial : OBJECT_MATERIAL where
  ambientColor := (0.02, 0.02, 0.02)
  ambientStrength := 0.01
  diffuseColor := (0.01, 0.01, 0.01)
  specularColor := (0.01, 0.01, 0.01)
  shininess := 0.01
  tag := "blackmetal"

/-- The `blueWoodMaterial` record pushed by `DefineObjectMaterials`. -/
def blueWoodMaterial : OBJECT_MATERIAL where
  ambientColor := (0.01, 0.01, 0.01)
  ambientStrength := 0.1
  diffuseColor := (0.1, 0.1, 0.2)
  specularColor := (0.1, 0.1, 0.3)
  shininess := 0.1
  tag := "bluewood"

/-- The `cheeseMaterial` record pushed by `DefineObjectMaterials`. -/
def cheeseMaterial : OBJECT_MATERIAL where
  ambientColor := (0.01, 0.01, 0.01)
  ambientStrength := 0.1
  diffuseColor := (0.6, 0.6, 0.6)
  specularColor := (0.1, 0.1, 0.1)
  shininess := 0.3
  tag := "cheese"

/-- The `turqoiseMaterial` record pushed by `DefineObjectMaterials`. -/
def turqoiseMaterial : OBJECT_MATERIAL where
  ambientColor := (0.1, 0.18725, 0.1745)
  ambientStrength := 0.2
  diffuseColor := (0.396, 0.74151, 0.69102)
  specularColor := (0.297254, 0.30829, 0.306678)
  shininess := 0.1
  tag := "turqoise"

/-- `SceneManager::DefineObjectMaterials()`: pushes the six hardcoded records
onto `m_objectMaterials`, in source order. -/
def DefineObjectMaterials (st : SceneState) : SceneState :=
  { st with objectMaterials :=
      st.objectMaterials ++
        [silverMaterial, goldMaterial, blackMetalMaterial,
         blueWoodMaterial, cheeseMaterial, turqoiseMaterial] }

/-! ## Texture registry operations -/

/-- The while loop of `SceneManager::FindTextureID`: starting from `index`,
scan up to `loaded` entries; at the first entry whose tag compares equal,
return its `ID` (the loop exits via `bFound = true`); if the index runs out,
the initial value `-1` of `textureID` is returned. -/
def findTextureIDAux (table : Nat → TEXTURE_ID) (loaded : Nat) (tag : String)
    (index : Nat) : Int :=
  if _h : index < loaded then
    if (table index).tag = tag then (table index).ID
    else findTextureIDAux table loaded tag (index + 1)
  else
    (-1)
termination_by loaded - index

/-- `SceneManager::FindTextureID(tag)`. -/
def findTextureID (st : SceneState) (tag : String) : Int :=
  findTextureIDAux st.textureIDs st.loadedTextures tag 0

/-- The while loop of `SceneManager::FindTextureSlot`: identical scan, but
the first matching index itself is returned (as the C++ `int textureSlot`). -/
def findTextureSlotAux (table : Nat → TEXTURE_ID) (loaded : Nat) (tag : String)
    (index : Nat) : Int :=
  if _h : index < loaded then
    if (table index).tag = tag then (index : Int)
    else findTextureSlotAux table loaded tag (index + 1)
  else
    (-1)
termination_by loaded - index

/-- `SceneManager::FindTextureSlot(tag)`. -/
def findTextureSlot (st : SceneState) (tag : String) : Int :=
  findTextureSlotAux st.textureIDs st.loadedTextures tag 0

/-- The registration step at the end of a successful `CreateGLTexture`:
`m_textureIDs[m_loadedTextures] = {tag, textureID}; m_loadedTextures++`.
No bounds check is performed on the write index. -/
def registerTexture (st : SceneState) (tag : String) (handle : Int) : SceneState :=
  { st with
    textureIDs := fun i =>
      if i = st.loadedTextures then ⟨tag, handle⟩ else st.textureIDs i
    loadedTextures := st.loadedTextures + 1 }

/-- The data `stbi_load` reports for a successfully parsed image file. -/
structure ImageData where
  width : Int
  height : Int
  colorChannels : Int
deriving DecidableEq

/-- `SceneManager::CreateGLTexture(filename, tag)`. The image-load outcome
(`none` when `stbi_load` returns null) and the handle produced by
`glGenTextures` are external inputs. On a readable image with 3 channels the
RGB upload branch runs, with 4 channels the RGBA branch runs, and in both the
pair (tag, handle) is registered and `true` returned; any other channel count
hits the `else` branch that logs and returns `false` without registering;
an unreadable file logs and returns `false`. -/
def CreateGLTexture (st : SceneState) (image : Option ImageData)
    (textureID : Int) (tag : String) : Bool × SceneState :=
  match image with
  | some img =>
      if img.colorChannels = 3 then
        (true, registerTexture st tag textureID)
      else if img.colorChannels = 4 then
        (true, registerTexture st tag textureID)
      else
        (false, st)
  | none => (false, st)

/-- Capacity-checked variant of `CreateGLTexture`, following the spec's
recommendation that an insertion beyond the table capacity should fail
explicitly instead of overflowing: `none` is the explicit capacity error. -/
def CreateGLTextureChecked (st : SceneState) (image : Option ImageData)
    (textureID : Int) (tag : String) : Option (Bool × SceneState) :=
  if st.loadedTextures < textureCapacity then
    some (CreateGLTexture st image textureID tag)
  else
    none

/-- A sequence of successful texture registrations: each pair (tag, handle)
goes through the registration step of `CreateGLTexture`, in list order. -/
def loadTextures (st : SceneState) : List (String × Int) → SceneState
  | [] => st
  | (t, h) :: rest => loadTextures (registerTexture st t h) rest

/-! ## Transformations (glm over ℝ) -/

/-- `glm::vec3` for geometry (scale, position, rotation axes). -/
structure Vec3 where
  x : ℝ
  y : ℝ
  z : ℝ

/-- `glm::radians`: degrees to radians. -/
noncomputable def glmRadians (degrees : ℝ) : ℝ := degrees * (Real.pi / 180)

/-- `glm::scale(v)`: the 4x4 scaling matrix. -/
noncomputable def glmScale (v : Vec3) : Matrix (Fin 4) (Fin 4) ℝ :=
  !![v.x, 0, 0, 0;
     0, v.y, 0, 0;
     0, 0, v.z, 0;
     0, 0, 0, 1]

/-- `glm::translate(v)`: the 4x4 translation matrix (glm stores the
translation in its fourth column-major column, i.e. the fourth column of the
mathematical matrix). -/
noncomputable def glmTranslate (v : Vec3) : Matrix (Fin 4) (Fin 4) ℝ :=
  !![1, 0, 0, v.x;
     0, 1, 0, v.y;
     0, 0, 1, v.z;
     0, 0, 0, 1]

/-- `glm::normalize` on a 3-vector: divide by the Euclidean length. -/
noncomputable def glmNormalize (v : Vec3) : Vec3 :=
  let len := Real.sqrt (v.x * v.x + v.y * v.y + v.z * v.z)
  ⟨v.x / len, v.y / len, v.z / len⟩

/-- `glm::rotate(angle, v)`: the axis-angle rotation matrix glm builds from
`c = cos angle`, `s = sin angle`, the normalized axis `a` and
`temp = (1-c)·a`. glm stores column-major (`Rotate[col][row]`); the literal
below lists the mathematical rows, so `Rotate[j][i]` appears at row `i`,
column `j`. -/
noncomputable def glmRotate (angle : ℝ) (v : Vec3) : Matrix (Fin 4) (Fin 4) ℝ :=
  let c := Real.cos angle
  let s := Real.sin angle
  let a := glmNormalize v
  let tx := (1 - c) * a.x
  let ty := (1 - c) * a.y
  let tz := (1 - c) * a.z
  !![c + tx * a.x, ty * a.x - s * a.z, tz * a.x + s * a.y, 0;
     tx * a.y + s * a.z, c + ty * a.y, tz * a.y - s * a.x, 0;
     tx * a.z - s * a.y, ty * a.z + s * a.x, c + tz * a.z, 0;
     0, 0, 0, 1]

/-! ## Shader-uniform calls -/

/-- One call into the `ShaderManager` uniform-setting interface. -/
inductive ShaderCall where
  | setMat4 (name : String) (value : Matrix (Fin 4) (Fin 4) ℝ)
  | setInt (name : String) (value : Int)
  | setVec4 (name : String) (r g b a : ℝ)
  | setSampler2D (name : String) (value : Int)
  | setVec2 (name : String) (u v : ℝ)

/-- `SceneManager::SetTransformations(scaleXYZ, XrotationDegrees,
YrotationDegrees, ZrotationDegrees, positionXYZ)`: builds the five component
matrices, multiplies them as
`translation * rotationX * rotationY * rotationZ * scale`, then sends the
result to the `"model"` uniform only when the shader-manager pointer is
non-null (`pShaderManager = true`). The method never touches the registry
state. -/
noncomputable def SetTransformations (pShaderManager : Bool) (st : SceneState)
    (scaleXYZ : Vec3) (XrotationDegrees YrotationDegrees ZrotationDegrees : ℝ)
    (positionXYZ : Vec3) : SceneState × List ShaderCall :=
  let scale := glmScale scaleXYZ
  let rotationX := glmRotate (glmRadians XrotationDegrees) ⟨1, 0, 0⟩
  let rotationY := glmRotate (glmRadians YrotationDegrees) ⟨0, 1, 0⟩
  let rotationZ := glmRotate (glmRadians ZrotationDegrees) ⟨0, 0, 1⟩
  let translation := glmTranslate positionXYZ
  let modelView := translation * rotationX * rotationY * rotationZ * scale
  if pShaderManager then
    (st, [ShaderCall.setMat4 "model" modelView])
  else
    (st, [])

/-- `SceneManager::SetShaderColor(r, g, b, a)`: under a non-null shader
manager, disables texturing and sends the color; otherwise does nothing. -/
def SetShaderColor (pShaderManager : Bool) (st : SceneState)
    (redColorValue greenColorValue blueColorValue alphaValue : ℝ) :
    SceneState × List ShaderCall :=
  if pShaderManager then
    (st, [ShaderCall.setInt "bUseTexture" 0,
          ShaderCall.setVec4 "objectColor"
            redColorValue greenColorValue blueColorValue alphaValue])
  else
    (st, [])

/-- `SceneManager::SetShaderTexture(textureTag)`: under a non-null shader
manager, enables texturing and sends the slot found for the tag (which may
be `-1` on a miss); otherwise does nothing. -/
def SetShaderTexture (pShaderManager : Bool) (st : SceneState)
    (textureTag : String) : SceneState × List ShaderCall :=
  if pShaderManager then
    (st, [ShaderCall.setInt "bUseTexture" 1,
          ShaderCall.setSampler2D "objectTexture" (findTextureSlot st textureTag)])
  else
    (st, [])

/-- `SceneManager::SetTextureUVScale(u, v)`: under a non-null shader manager,
sends the UV scale; otherwise does nothing. -/
def SetTextureUVScale (pShaderManager : Bool) (st : SceneState) (u v : ℝ) :
    SceneState × List ShaderCall :=
  if pShaderManager then
    (st, [ShaderCall.setVec2 "UVscale" u v])
  else
    (st, [])

/-! ## Method-level views of the lookups (result, post-state) -/

/-- `FindTextureID` as a method acting on the registry state: the loop only
reads the table and writes locals, so the state comes back as it went in. -/
def FindTextureIDMethod (st : SceneState) (tag : String) : Int × SceneState :=
  (findTextureID st tag, st)

/-- `FindTextureSlot` as a method acting on the registry state. -/
def FindTextureSlotMethod (st : SceneState) (tag : String) : Int × SceneState :=
  (findTextureSlot st tag, st)

/-- `FindMaterial` as a method acting on the registry state; the output
parameter is caller-local and not part of the registry. -/
def FindMaterialMethod (st : SceneState) (tag : String)
    (material : OBJECT_MATERIAL) : (Bool × OBJECT_MATERIAL) × SceneState :=
  (FindMaterial st.objectMaterials tag material, st)

/-! ## Canonical axis rotation matrices (the spec's reading) -/

/-- The canonical rotation matrix about the X axis. -/
noncomputable def rotationMatrixX (t : ℝ) : Matrix (Fin 4) (Fin 4) ℝ :=
  !![1, 0, 0, 0;
     0, Real.cos t, -Real.sin t, 0;
     0, Real.sin t, Real.cos t, 0;
     0, 0, 0, 1]

/-- The canonical rotation matrix about the Y axis. -/
noncomputable def rotationMatrixY (t : ℝ) : Matrix (Fin 4) (Fin 4) ℝ :=
  !![Real.cos t, 0, Real.sin t, 0;
     0, 1, 0, 0;
     -Real.sin t, 0, Real.cos t, 0;
     0, 0, 0, 1]

/-- The canonical rotation matrix about the Z axis. -/
noncomputable def rotationMatrixZ (t : ℝ) : Matrix (Fin 4) (Fin 4) ℝ :=
  !![Real.cos t, -Real.sin t, 0, 0;
     Real.sin t, Real.cos t, 0, 0;
     0, 0, 1, 0;
     0, 0, 0, 1]

/-! ## Concrete states used by closed theorems -/

/-- Sixteen distinct (tag, handle) pairs: enough successful loads to fill
every slot of the 16-entry texture table. -/
def sixteenTextures : List (String × Int) :=
  [("t0", 10), ("t1", 11), ("t2", 12), ("t3", 13),
   ("t4", 14), ("t5", 15), ("t6", 16), ("t7", 17),
   ("t8", 18), ("t9", 19), ("t10", 20), ("t11", 21),
   ("t12", 22), ("t13", 23), ("t14", 24), ("t15", 25)]

/-- The registry state reached after sixteen successful texture loads. -/
def fullState : SceneState := loadTextures initialSceneState sixteenTextures

/-! ## Basic lemmas about the material scan -/

/-- When no record in the list carries the tag, the scan loop leaves the
output parameter untouched. -/
lemma findMaterialScan_of_not_mem (mats : List OBJECT_MATERIAL) (tag : String)
    (material : OBJECT_MATERIAL) (h : ∀ m ∈ mats, m.tag ≠ tag) :
    findMaterialScan mats tag material = material := by
  induction mats with
  | nil => rfl
  | cons m rest ih =>
      have hm : m.tag ≠ tag := h m (List.mem_cons_self m rest)
      simp only [findMaterialScan, if_neg hm]
      exact ih fun x hx => h x (List.mem_cons_of_mem m hx)

/-- When some record carries the tag, the scan loop copies the five lighting
fields of the first such record into the output parameter. -/
lemma findMaterialScan_of_first_match (mats : List OBJECT_MATERIAL)
    (tag : String) (material : OBJECT_MATERIAL) (pre : List OBJECT_MATERIAL)
    (m : OBJECT_MATERIAL) (suf : List OBJECT_MATERIAL)
    (hsplit : mats = pre ++ m :: suf) (hm : m.tag = tag)
    (hpre : ∀ x ∈ pre, x.tag ≠ tag) :
    findMaterialScan mats tag material = copyMaterialFields material m := by
  subst hsplit
  induction pre with
  | nil => simp [findMaterialScan, hm]
  | cons p rest ih =>
      have hp : p.tag ≠ tag := hpre p (List.mem_cons_self p rest)
      simp only [List.cons_append, findMaterialScan, if_neg hp]
      exact ih fun x hx => hpre x (List.mem_cons_of_mem p hx)

/-! ## Scan-loop lemmas -/

/-- The scan returns `-1` when no in-range entry at or after the start index
carries the tag. -/
lemma findTextureIDAux_of_miss (table : Nat → TEXTURE_ID) (loaded : Nat)
    (tag : String) (index : Nat)
    (h : ∀ j, index ≤ j → j < loaded → (table j).tag ≠ tag) :
    findTextureIDAux table loaded tag index = -1 := by
  unfold findTextureIDAux
  split
  · rename_i hlt
    rw [if_neg (h index le_rfl hlt)]
    exact findTextureIDAux_of_miss table loaded tag (index + 1)
      fun j hj hj2 => h j (le_of_lt (Nat.lt_of_lt_of_le (Nat.lt_succ_self index) hj)) hj2
  · rfl
termination_by loaded - index

/-- The scan returns the `ID` of the earliest in-range matching entry. -/
lemma findTextureIDAux_of_hit (table : Nat → TEXTURE_ID) (loaded : Nat)
    (tag : String) (index j : Nat) (hij : index ≤ j) (hjl : j < loaded)
    (hj : (table j).tag = tag)
    (hmin : ∀ k, index ≤ k → k < j → (table k).tag ≠ tag) :
    findTextureIDAux table loaded tag index = (table j).ID := by
  unfold findTextureIDAux
  rcases Nat.eq_or_lt_of_le hij with heq | hlt
  · subst heq
    rw [dif_pos hjl, if_pos hj]
  · rw [dif_pos (Nat.lt_of_le_of_lt hij hjl)]
    rw [if_neg (hmin index le_rfl hlt)]
    exact findTextureIDAux_of_hit table loaded tag (index + 1) j hlt hjl hj
      fun k hk hk2 => hmin k (le_of_lt (Nat.lt_of_lt_of_le (Nat.lt_succ_self index) hk)) hk2
termination_by loaded - index

/-- The slot scan returns `-1` on a miss. -/
lemma findTextureSlotAux_of_miss (table : Nat → TEXTURE_ID) (loaded : Nat)
    (tag : String) (index : Nat)
    (h : ∀ j, index ≤ j → j < loaded → (table j).tag ≠ tag) :
    findTextureSlotAux table loaded tag index = -1 := by
  unfold findTextureSlotAux
  split
  · rename_i hlt
    rw [if_neg (h index le_rfl hlt)]
    exact findTextureSlotAux_of_miss table loaded tag (index + 1)
      fun j hj hj2 => h j (le_of_lt (Nat.lt_of_lt_of_le (Nat.lt_succ_self index) hj)) hj2
  · rfl
termination_by loaded - index

/-- The slot scan returns the index of the earliest in-range matching entry. -/
lemma findTextureSlotAux_of_hit (table : Nat → TEXTURE_ID) (loaded : Nat)
    (tag : String) (index j : Nat) (hij : index ≤ j) (hjl : j < loaded)
    (hj : (table j).tag = tag)
    (hmin : ∀ k, index ≤ k → k < j → (table k).tag ≠ tag) :
    findTextureSlotAux table loaded tag index = (j : Int) := by
  unfold findTextureSlotAux
  rcases Nat.eq_or_lt_of_le hij with heq | hlt
  · subst heq
    rw [dif_pos hjl, if_pos hj]
  · rw [dif_pos (Nat.lt_of_le_of_lt hij hjl)]
    rw [if_neg (hmin index le_rfl hlt)]
    exact findTextureSlotAux_of_hit table loaded tag (index + 1) j hlt hjl hj
      fun k hk hk2 => hmin k (le_of_lt (Nat.lt_of_lt_of_le (Nat.lt_succ_self index) hk)) hk2
termination_by loaded - index

/-! ## State after a sequence of successful loads -/

/-- Each registration increments the loaded-texture count by one. -/
lemma loadTextures_loaded (pairs : List (String × Int)) :
    ∀ st : SceneState,
      (loadTextures st pairs).loadedTextures = st.loadedTextures + pairs.length := by
  induction pairs with
  | nil => intro st; simp [loadTextures]
  | cons p rest ih =>
      intro st
      obtain ⟨t, h⟩ := p
      simp only [loadTextures, ih, registerTexture, List.length_cons]
      omega

/-- Registrations never touch table entries below the current count. -/
lemma loadTextures_table_lt (pairs : List (String × Int)) :
    ∀ st : SceneState, ∀ i : Nat, i < st.loadedTextures →
      (loadTextures st pairs).textureIDs i = st.textureIDs i := by
  induction pairs with
  | nil => intro st i _; rfl
  | cons p rest ih =>
      intro st i hi
      obtain ⟨t, h⟩ := p
      rw [loadTextures, ih (registerTexture st t h) i (by simp [registerTexture]; omega)]
      simp only [registerTexture]
      rw [if_neg (by omega)]

/-- After registering `pairs`, the table entry at offset `k` holds the
`k`-th pair. -/
lemma loadTextures_table_get (pairs : List (String × Int)) :
    ∀ st : SceneState, ∀ k : Nat, ∀ hk : k < pairs.length,
      (loadTextures st pairs).textureIDs (st.loadedTextures + k) =
        ⟨(pairs.get ⟨k, hk⟩).1, (pairs.get ⟨k, hk⟩).2⟩ := by
  induction pairs with
  | nil => intro st k hk; exact absurd hk (Nat.not_lt_zero k)
  | cons p rest ih =>
      intro st k hk
      obtain ⟨t, h⟩ := p
      match k with
      | 0 =>
          rw [loadTextures,
            loadTextures_table_lt rest (registerTexture st t h)
              (st.loadedTextures + 0) (by simp [registerTexture])]
          simp [registerTexture]
      | Nat.succ k =>
          have hk : k < rest.length := Nat.lt_of_succ_lt_succ hk
          have := ih (registerTexture st t h) k hk
          simp only [registerTexture] at this
          rw [loadTextures]
          have harith : st.loadedTextures + (k + 1) = st.loadedTextures + 1 + k := by omega
          rw [harith]
          exact this.trans (by simp)

/-- Normalizing the unit X axis is the identity. -/
lemma glmNormalize_xAxis : glmNormalize ⟨1, 0, 0⟩ = ⟨1, 0, 0⟩ := by
  simp [glmNormalize]

/-- Normalizing the unit Y axis is the identity. -/
lemma glmNormalize_yAxis : glmNormalize ⟨0, 1, 0⟩ = ⟨0, 1, 0⟩ := by
  simp [glmNormalize]

/-- Normalizing the unit Z axis is the identity. -/
lemma glmNormalize_zAxis : glmNormalize ⟨0, 0, 1⟩ = ⟨0, 0, 1⟩ := by
  simp [glmNormalize]

/-- glm's axis-angle matrix instantiated at the X axis is the canonical
X-rotation matrix. -/
lemma glmRotate_xAxis (t : ℝ) : glmRotate t ⟨1, 0, 0⟩ = rotationMatrixX t := by
  unfold glmRotate rotationMatrixX
  rw [glmNormalize_xAxis]
  ext i j
  fin_cases i <;> fin_cases j <;> simp

/-- glm's axis-angle matrix instantiated at the Y axis is the canonical
Y-rotation matrix. -/
lemma glmRotate_yAxis (t : ℝ) : glmRotate t ⟨0, 1, 0⟩ = rotationMatrixY t := by
  unfold glmRotate rotationMatrixY
  rw [glmNormalize_yAxis]
  ext i j
  fin_cases i <;> fin_cases j <;> simp

/-- glm's axis-angle matrix instantiated at the Z axis is the canonical
Z-rotation matrix. -/
lemma glmRotate_zAxis (t : ℝ) : glmRotate t ⟨0, 0, 1⟩ = rotationMatrixZ t := by
  unfold glmRotate rotationMatrixZ
  rw [glmNormalize_zAxis]
  ext i j
  fin_cases i <;> fin_cases j <;> simp

/-! ## Claim theorems -/

/-- C1: the intended contract — `FindMaterial` returns false when the tag is
absent — is violated by the code. Evaluated at the failing input: the six
materials installed by `DefineObjectMaterials` contain no record tagged
"granite", the output record comes back untouched, yet the call returns
`true`. -/
theorem findMaterial_code_bug_eval :
    (∀ m ∈ (DefineObjectMaterials initialSceneState).objectMaterials,
        m.tag ≠ "granite")
    ∧ (FindMaterial (DefineObjectMaterials initialSceneState).objectMaterials
        "granite" silverMaterial).2 = silverMaterial
    ∧ (FindMaterial (DefineObjectMaterials initialSceneState).objectMaterials
        "granite" silverMaterial).1 = true := by
  refine ⟨by decide, rfl, rfl⟩

/-- C2: whenever the material list is non-empty, `FindMaterial` returns
`true` regardless of match; the output record is left unchanged after a full
scan with no match, and is overwritten (five lighting fields copied from the
earliest match) exactly when a match exists. -/
theorem findMaterial_true_on_nonempty (mats : List OBJECT_MATERIAL)
    (tag : String) (material : OBJECT_MATERIAL) (h : mats ≠ []) :
    (FindMaterial mats tag material).1 = true
    ∧ ((∀ m ∈ mats, m.tag ≠ tag) →
        (FindMaterial mats tag material).2 = material)
    ∧ (∀ pre m suf, mats = pre ++ m :: suf → m.tag = tag →
        (∀ x ∈ mats, x ∈ pre → x.tag ≠ tag) →
        (FindMaterial mats tag material).2 = copyMaterialFields material m) := by
  have hlen : ¬ mats.length = 0 := by
    intro hc
    exact h (List.length_eq_zero.mp hc)
  refine ⟨?_, ?_, ?_⟩
  · simp only [FindMaterial, if_neg hlen]
  · intro hmiss
    simp only [FindMaterial, if_neg hlen]
    exact findMaterialScan_of_not_mem mats tag material hmiss
  · intro pre m suf hsplit hm hpre
    simp only [FindMaterial, if_neg hlen]
    refine findMaterialScan_of_first_match mats tag material pre m suf hsplit hm ?_
    intro x hx
    exact hpre x (by rw [hsplit]; exact List.mem_append_left _ hx) hx

/-- Witness for C2 at a concrete input: a one-element list not containing
the probed tag still yields `true`, with the output unchanged. -/
theorem findMaterial_true_on_nonempty_witness :
    (FindMaterial [goldMaterial] "granite" silverMaterial).1 = true
    ∧ (FindMaterial [goldMaterial] "granite" silverMaterial).2 = silverMaterial := by
  have h := findMaterial_true_on_nonempty [goldMaterial] "granite" silverMaterial
    (by simp)
  exact ⟨h.1, h.2.1 (by decide)⟩

/-- C3: after a sequence of successful `CreateGLTexture` registrations with
pairwise-distinct tags (within the table capacity), looking up any inserted
tag returns the handle stored with it, and looking up an absent tag returns
`-1`. -/
theorem findTextureID_after_loads (pairs : List (String × Int)) (t : String)
    (h : Int) ( _hcap : pairs.length ≤ textureCapacity)
    (hdistinct : pairs.Pairwise fun p q => p.1 ≠ q.1) (hmem : (t, h) ∈ pairs) :
    findTextureID (loadTextures initialSceneState pairs) t = h
    ∧ ∀ t2 : String, (∀ p ∈ pairs, p.1 ≠ t2) →
        findTextureID (loadTextures initialSceneState pairs) t2 = -1 := by
  have hloaded : (loadTextures initialSceneState pairs).loadedTextures = pairs.length := by
    rw [loadTextures_loaded]
    simp [initialSceneState]
  have htable : ∀ k : Nat, ∀ hk : k < pairs.length,
      (loadTextures initialSceneState pairs).textureIDs k =
        ⟨(pairs.get ⟨k, hk⟩).1, (pairs.get ⟨k, hk⟩).2⟩ := by
    intro k hk
    have := loadTextures_table_get pairs initialSceneState k hk
    simpa [initialSceneState] using this
  constructor
  · obtain ⟨j, hget⟩ := List.mem_iff_get.mp hmem
    have htagj : ((loadTextures initialSceneState pairs).textureIDs (j : Nat)).tag = t := by
      rw [htable (j : Nat) j.isLt]
      show (pairs.get ⟨(j : Nat), j.isLt⟩).1 = t
      rw [Fin.eta, hget]
    have hminN : ∀ k, 0 ≤ k → k < (j : Nat) →
        ((loadTextures initialSceneState pairs).textureIDs k).tag ≠ t := by
      intro k _ hkj
      have hk : k < pairs.length := Nat.lt_trans hkj j.isLt
      rw [htable k hk]
      have hR := List.pairwise_iff_get.mp hdistinct ⟨k, hk⟩ j hkj
      rw [hget] at hR
      simpa using hR
    have := findTextureIDAux_of_hit
      (loadTextures initialSceneState pairs).textureIDs
      (loadTextures initialSceneState pairs).loadedTextures t 0 (j : Nat)
      (Nat.zero_le _) (by rw [hloaded]; exact j.isLt) htagj hminN
    rw [findTextureID, this, htable (j : Nat) j.isLt]
    show (pairs.get ⟨(j : Nat), j.isLt⟩).2 = h
    rw [Fin.eta, hget]
  · intro t2 hmiss
    apply findTextureIDAux_of_miss
    intro k _ hk
    rw [hloaded] at hk
    rw [htable k hk]
    exact hmiss (pairs.get ⟨k, hk⟩) (List.get_mem pairs k hk)

/-- Witness for C3 at a concrete input: two loads, lookup of the second tag
returns its handle and lookup of an absent tag returns -1. -/
theorem findTextureID_after_loads_witness :
    findTextureID (loadTextures initialSceneState [("pot", 3), ("gold", 4)]) "gold" = 4
    ∧ findTextureID (loadTextures initialSceneState [("pot", 3), ("gold", 4)]) "melon" = -1 := by
  have h := findTextureID_after_loads [("pot", 3), ("gold", 4)] "gold" 4
    (by decide) (by decide) (by decide)
  exact ⟨h.1, h.2 "melon" (by decide)⟩

/-- C4: both texture lookups scan in insertion order and stop at the first
matching entry — with duplicate tags the earliest-inserted entry's handle
(resp. slot index) wins — and both return `-1` when nothing matches. -/
theorem findTexture_first_match_wins (pairs : List (String × Int)) (t : String)
    (j : Fin pairs.length) ( _hcap : pairs.length ≤ textureCapacity)
    (hj : (pairs.get j).1 = t)
    (hmin : ∀ k : Fin pairs.length, (k : Nat) < (j : Nat) → (pairs.get k).1 ≠ t) :
    findTextureID (loadTextures initialSceneState pairs) t = (pairs.get j).2
    ∧ findTextureSlot (loadTextures initialSceneState pairs) t = ((j : Nat) : Int)
    ∧ ∀ t2 : String, (∀ p ∈ pairs, p.1 ≠ t2) →
        findTextureID (loadTextures initialSceneState pairs) t2 = -1
        ∧ findTextureSlot (loadTextures initialSceneState pairs) t2 = -1 := by
  have hloaded : (loadTextures initialSceneState pairs).loadedTextures = pairs.length := by
    rw [loadTextures_loaded]
    simp [initialSceneState]
  have htable : ∀ k : Nat, ∀ hk : k < pairs.length,
      (loadTextures initialSceneState pairs).textureIDs k =
        ⟨(pairs.get ⟨k, hk⟩).1, (pairs.get ⟨k, hk⟩).2⟩ := by
    intro k hk
    have := loadTextures_table_get pairs initialSceneState k hk
    simpa [initialSceneState] using this
  have htagj : ((loadTextures initialSceneState pairs).textureIDs (j : Nat)).tag = t := by
    rw [htable (j : Nat) j.isLt]
    simpa [Fin.eta] using hj
  have hminN : ∀ k, 0 ≤ k → k < (j : Nat) →
      ((loadTextures initialSceneState pairs).textureIDs k).tag ≠ t := by
    intro k _ hkj
    have hk : k < pairs.length := Nat.lt_trans hkj j.isLt
    rw [htable k hk]
    exact hmin ⟨k, hk⟩ hkj
  refine ⟨?_, ?_, ?_⟩
  · have := findTextureIDAux_of_hit
      (loadTextures initialSceneState pairs).textureIDs
      (loadTextures initialSceneState pairs).loadedTextures t 0 (j : Nat)
      (Nat.zero_le _) (by rw [hloaded]; exact j.isLt) htagj hminN
    rw [findTextureID, this, htable (j : Nat) j.isLt]
  · exact findTextureSlotAux_of_hit _ _ _ 0 (j : Nat) (Nat.zero_le _)
      (by rw [hloaded]; exact j.isLt) htagj hminN
  · intro t2 hmiss
    constructor
    · apply findTextureIDAux_of_miss
      intro k _ hk
      rw [hloaded] at hk
      rw [htable k hk]
      exact hmiss (pairs.get ⟨k, hk⟩) (List.get_mem pairs k hk)
    · apply findTextureSlotAux_of_miss
      intro k _ hk
      rw [hloaded] at hk
      rw [htable k hk]
      exact hmiss (pairs.get ⟨k, hk⟩) (List.get_mem pairs k hk)

/-- Witness for C4 at a concrete input with a duplicated tag: the
earliest-inserted entry's handle and slot are returned, and an absent tag
yields -1 from both lookups. -/
theorem findTexture_first_match_wins_witness :
    findTextureID (loadTextures initialSceneState [("pot", 3), ("pot", 4)]) "pot" = 3
    ∧ findTextureSlot (loadTextures initialSceneState [("pot", 3), ("pot", 4)]) "pot" = 0
    ∧ findTextureID (loadTextures initialSceneState [("pot", 3), ("pot", 4)]) "gold" = -1 := by
  have h := findTexture_first_match_wins [("pot", 3), ("pot", 4)] "pot"
    ⟨0, by decide⟩ (by decide) (by decide)
    (fun k hk => absurd hk (Nat.not_lt_zero _))
  exact ⟨h.1, h.2.1, (h.2.2 "gold" (by decide)).1⟩

/-- C5: `CreateGLTexture` fails exactly on an unreadable file or a channel
count other than 3 and 4; on failure the registry state is unchanged (so a
tag that was unresolvable stays unresolvable, lookup returning -1), and on
success the (tag, handle) pair is appended via the registration step. -/
theorem createGLTexture_contract (st : SceneState) (image : Option ImageData)
    (textureID : Int) (tag : String) :
    ((CreateGLTexture st image textureID tag).1 = false ↔
      image = none ∨ ∃ img, image = some img ∧
        img.colorChannels ≠ 3 ∧ img.colorChannels ≠ 4)
    ∧ ((CreateGLTexture st image textureID tag).1 = false →
        (CreateGLTexture st image textureID tag).2 = st)
    ∧ (findTextureID st tag = -1 →
        (CreateGLTexture st image textureID tag).1 = false →
        findTextureID (CreateGLTexture st image textureID tag).2 tag = -1)
    ∧ ((CreateGLTexture st image textureID tag).1 = true →
        (CreateGLTexture st image textureID tag).2 = registerTexture st tag textureID) := by
  match image with
  | none =>
      refine ⟨?_, fun _ => rfl, fun hmiss _ => hmiss, fun hc => ?_⟩
      · simp [CreateGLTexture]
      · simp [CreateGLTexture] at hc
  | some img =>
      by_cases h3 : img.colorChannels = 3
      · refine ⟨?_, ?_, ?_, fun _ => ?_⟩
        · simp [CreateGLTexture, h3]
        · simp [CreateGLTexture, h3]
        · simp [CreateGLTexture, h3]
        · simp [CreateGLTexture, h3]
      · by_cases h4 : img.colorChannels = 4
        · refine ⟨?_, ?_, ?_, fun _ => ?_⟩
          · simp [CreateGLTexture, h3, h4]
          · simp [CreateGLTexture, h3, h4]
          · simp [CreateGLTexture, h3, h4]
          · simp [CreateGLTexture, h3, h4]
        · refine ⟨?_, fun _ => ?_, fun hmiss _ => ?_, fun hc => ?_⟩
          · simp [CreateGLTexture, h3, h4]
          · simp [CreateGLTexture, h3, h4]
          · simpa [CreateGLTexture, h3, h4] using hmiss
          · simp [CreateGLTexture, h3, h4] at hc

/-- Witness for C5 at a concrete input: a 2-channel image is rejected and
the registry is left as it was, with the probed tag still unresolvable. -/
theorem createGLTexture_contract_witness :
    (CreateGLTexture initialSceneState (some ⟨64, 64, 2⟩) 7 "pot").1 = false
    ∧ (CreateGLTexture initialSceneState (some ⟨64, 64, 2⟩) 7 "pot").2 = initialSceneState
    ∧ findTextureID (CreateGLTexture initialSceneState (some ⟨64, 64, 2⟩) 7 "pot").2 "pot" = -1 := by
  have h := createGLTexture_contract initialSceneState (some ⟨64, 64, 2⟩) 7 "pot"
  have hfalse : (CreateGLTexture initialSceneState (some ⟨64, 64, 2⟩) 7 "pot").1 = false :=
    h.1.mpr (Or.inr ⟨⟨64, 64, 2⟩, rfl, by decide, by decide⟩)
  have hmiss : findTextureID initialSceneState "pot" = -1 := by
    rw [findTextureID]
    unfold findTextureIDAux
    simp [initialSceneState]
  exact ⟨hfalse, h.2.1 hfalse, h.2.2.1 hmiss hfalse⟩

/-- C6: the texture table holds 16 entries and `CreateGLTexture` never
checks the count against that capacity: in the (reachable) state left by
sixteen successful loads the count equals the capacity, yet a further
successful call still returns `true` and writes its entry at index 16 — one
past the last valid slot 15 — while the capacity-checked variant the spec
asks for takes its explicit error branch on the same state. -/
theorem createGLTexture_capacity_overflow :
    fullState.loadedTextures = textureCapacity
    ∧ (CreateGLTexture fullState (some ⟨64, 64, 3⟩) 99 "extra").1 = true
    ∧ (CreateGLTexture fullState (some ⟨64, 64, 3⟩) 99 "extra").2.loadedTextures =
        textureCapacity + 1
    ∧ ((CreateGLTexture fullState (some ⟨64, 64, 3⟩) 99 "extra").2.textureIDs
        textureCapacity).tag = "extra"
    ∧ ¬ textureCapacity < textureCapacity
    ∧ CreateGLTextureChecked fullState (some ⟨64, 64, 3⟩) 99 "extra" = none := by
  refine ⟨rfl, rfl, rfl, rfl, by omega, rfl⟩

/-- C7: for every scale vector, rotation angles in degrees and position
vector, the matrix `SetTransformations` sends to the `"model"` uniform is
exactly `translation * rotationX * rotationY * rotationZ * scale`, with the
canonical axis rotation matrices at the radian-converted angles, composed in
that order. -/
theorem setTransformations_model_matrix (st : SceneState) (scaleXYZ : Vec3)
    (XrotationDegrees YrotationDegrees ZrotationDegrees : ℝ)
    (positionXYZ : Vec3) :
    SetTransformations true st scaleXYZ XrotationDegrees YrotationDegrees
      ZrotationDegrees positionXYZ =
      (st, [ShaderCall.setMat4 "model"
        (glmTranslate positionXYZ *
          rotationMatrixX (glmRadians XrotationDegrees) *
          rotationMatrixY (glmRadians YrotationDegrees) *
          rotationMatrixZ (glmRadians ZrotationDegrees) *
          glmScale scaleXYZ)]) := by
  simp [SetTransformations, glmRotate_xAxis, glmRotate_yAxis, glmRotate_zAxis]

/-- C8: starting from the empty material list, `DefineObjectMaterials`
appends exactly six records carrying the six expected distinct tags, in
source order. -/
theorem defineObjectMaterials_six_tags :
    (DefineObjectMaterials initialSceneState).objectMaterials.length = 6
    ∧ (DefineObjectMaterials initialSceneState).objectMaterials.map OBJECT_MATERIAL.tag =
        ["silver", "metal", "blackmetal", "bluewood", "cheese", "turqoise"]
    ∧ ((DefineObjectMaterials initialSceneState).objectMaterials.map OBJECT_MATERIAL.tag).Nodup := by
  refine ⟨rfl, rfl, by decide⟩

/-- C9: the three lookup methods return the registry state exactly as it
went in — none of them writes the texture table, the loaded-texture count
or the material list. -/
theorem lookups_preserve_state (st : SceneState) (tag : String)
    (material : OBJECT_MATERIAL) :
    (FindTextureIDMethod st tag).2 = st
    ∧ (FindTextureSlotMethod st tag).2 = st
    ∧ (FindMaterialMethod st tag material).2 = st :=
  ⟨rfl, rfl, rfl⟩

/-- C10: with a null shader-manager pointer, each of the four shader-setting
methods issues no shader call and returns the state unchanged, whatever its
arguments. -/
theorem null_shader_manager_noop (st : SceneState) (scaleXYZ : Vec3)
    (XrotationDegrees YrotationDegrees ZrotationDegrees : ℝ)
    (positionXYZ : Vec3) (r g b a : ℝ) (textureTag : String) (u v : ℝ) :
    SetTransformations false st scaleXYZ XrotationDegrees YrotationDegrees
      ZrotationDegrees positionXYZ = (st, [])
    ∧ SetShaderColor false st r g b a = (st, [])
    ∧ SetShaderTexture false st textureTag = (st, [])
    ∧ SetTextureUVScale false st u v = (st, []) :=
  ⟨rfl, rfl, rfl, rfl⟩
